import Mathlib

/-!
Verification development for the resharding donor state machine
(`ReshardingDonorService::DonorStateMachine`).

The repository ships the unit test
`src/mongo/db/s/resharding/resharding_donor_service_test.cpp`; the donor
service implementation itself (`resharding_donor_service.cpp/.h`) is not part
of the source tree here, so the state machine below is modelled from the
design specification, with every detail that the unit test pins down
(transition triggers, oplog-marker contents and their timing relative to the
persisted phase) taken from the test's assertions.

Identifiers (`ShardId`, namespaces, UUIDs, the resharding key) are opaque in
the design, so they are embedded as natural numbers.
-/

namespace ReshardingDonor

/-- A shard identifier (opaque). -/
abbrev ShardId := Nat

/-- A collection namespace (opaque). -/
abbrev NamespaceString := Nat

/-- A collection content-identity (uuid, opaque). -/
abbrev UUID := Nat

/-- The dedicated oplog-batch-boundary namespace
(`NamespaceString::kForceOplogBatchBoundaryNamespace` in the test). -/
def kForceOplogBatchBoundaryNamespace : NamespaceString := 0

/-- Modelled from the spec: the donor phases (`DonorStateEnum` in the test;
the spec names them PreparingToDonate, DonatingInitialData,
DonatingLogEntries, BlockingWrites, Done). `kUnused` is the sentinel the test
uses before any state is reached. -/
inductive DonorStateEnum where
  | kUnused
  | kPreparingToDonate
  | kDonatingInitialData
  | kDonatingOplogEntries
  | kBlockingWrites
  | kDone
deriving DecidableEq, Repr

/-- Numeric rank of a phase in the spec's order
PreparingToDonate < DonatingInitialData < DonatingLogEntries <
BlockingWrites < Done. -/
def DonorStateEnum.rank : DonorStateEnum → Nat
  | .kUnused => 0
  | .kPreparingToDonate => 1
  | .kDonatingInitialData => 2
  | .kDonatingOplogEntries => 3
  | .kBlockingWrites => 4
  | .kDone => 5

/-- Modelled from the spec: the persisted state record
(`ReshardingDonorDocument`): operation identity (`reshardingUUID`), source
collection reference, destination (temporary resharding) namespace,
partition key, ordered participant set (`recipientShards`), phase, the
latched abort flag, and the optional min-fetch boundary value. -/
structure ReshardingDonorDocument where
  reshardingUUID : UUID
  sourceNss : NamespaceString
  sourceUUID : UUID
  tempReshardingNss : NamespaceString
  reshardingKey : Nat
  recipientShards : List ShardId
  state : DonorStateEnum
  aborted : Bool
  minFetchTimestamp : Option Nat
deriving DecidableEq, Repr

/-- Replication-log operation type; the markers the donor writes are no-ops. -/
inductive OpTypeEnum where
  | kNoop
  | kInsert
  | kUpdate
  | kDelete
  | kCommand
deriving DecidableEq, Repr

/-- The `o2` payload of a final reshard marker: the test asserts it is
`{type: "reshardFinalOp", reshardingUUID: <operation id>}`. -/
structure ReshardFinalOpO2 where
  markerType : String
  reshardingUUID : UUID
deriving DecidableEq, Repr

/-- A replication-log (oplog) entry, restricted to the fields the donor's
markers carry and the test inspects: op type, namespace, optional collection
uuid, the `msg` string of the `o` object, the optional `o2` payload, and the
optional destined recipient tag. -/
structure OplogEntry where
  opType : OpTypeEnum
  nss : NamespaceString
  uuid : Option UUID
  msg : String
  o2 : Option ReshardFinalOpO2
  destinedRecipient : Option ShardId
deriving DecidableEq, Repr

/-- The boundary marker written to generate the min-fetch timestamp: a no-op
entry in the dedicated batch-boundary namespace, with no collection uuid, no
`o2` payload and no destined-recipient tag (test
`WritesNoOpOplogEntryToGenerateMinFetchTimestamp`). -/
def minFetchMarkerEntry : OplogEntry :=
  { opType := .kNoop
    nss := kForceOplogBatchBoundaryNamespace
    uuid := none
    msg := "Created temporary resharding collection"
    o2 := none
    destinedRecipient := none }

/-- One final reshard marker: a no-op entry on the source collection's
namespace and uuid, tagged with its destined recipient and carrying the
`reshardFinalOp` payload naming the operation (test
`WritesFinalReshardOpOplogEntriesWhileWritesBlocked`). -/
def finalOpEntry (r : ReshardingDonorDocument) (sh : ShardId) : OplogEntry :=
  { opType := .kNoop
    nss := r.sourceNss
    uuid := some r.sourceUUID
    msg := "Writing final oplog entry for resharding"
    o2 := some { markerType := "reshardFinalOp", reshardingUUID := r.reshardingUUID }
    destinedRecipient := some sh }

/-- The final reshard markers, one per participant, in `recipientShards`
order (the test iterates `doc.getRecipientShards()` in order against the
oplog cursor). -/
def finalOplogEntries (r : ReshardingDonorDocument) : List OplogEntry :=
  r.recipientShards.map (finalOpEntry r)

/-- The collection catalog: an association of namespaces to collection
uuids (content-identities). -/
abbrev Catalog := List (NamespaceString × UUID)

/-- Content-identity of the collection currently at a namespace, if any. -/
def lookupColl (cat : Catalog) (nss : NamespaceString) : Option UUID :=
  (cat.find? (fun p => p.1 == nss)).map (fun p => p.2)

/-- Drop the collection at a namespace. -/
def dropCollection (cat : Catalog) (nss : NamespaceString) : Catalog :=
  cat.filter (fun p => p.1 != nss)

/-- Rename the collection at `src` to `dst`, dropping any previous target:
afterwards `dst` carries the renamed collection's content-identity and `src`
is gone. -/
def renameCollection (cat : Catalog) (src dst : NamespaceString) : Catalog :=
  match lookupColl cat src with
  | some u => dropCollection (dropCollection cat src) dst ++ [(dst, u)]
  | none => cat

/-- The catalog effect of the committing transition: if this donor is also a
participant, atomically replace the source collection by the temporary
resharding collection (rename, preserving the destination's
content-identity); otherwise drop the source collection. -/
def commitCatalog (d : ShardId) (r : ReshardingDonorDocument) (cat : Catalog) : Catalog :=
  if r.recipientShards.contains d then
    renameCollection cat r.tempReshardingNss r.sourceNss
  else
    dropCollection cat r.sourceNss

/-- Modelled from the spec: the four single-assignment coordinator-signal
latches of a live instance. Firing sets a flag; firing again is a no-op. -/
structure CoordinatorLatches where
  recipientsDoneCloning : Bool
  startBlockingWrites : Bool
  committing : Bool
  aborting : Bool
deriving DecidableEq, Repr

/-- No latch fired yet (the state of a freshly created or resumed instance). -/
def noLatches : CoordinatorLatches :=
  { recipientsDoneCloning := false
    startBlockingWrites := false
    committing := false
    aborting := false }

/-- Outcome carried by the completion signal. -/
inductive Completion where
  | ok
  | interruptedDueToReplStateChange
deriving DecidableEq, Repr

/-- The whole observable system for one operation on one node: the persisted
record (`none` once deleted), the replication log, the collection catalog,
whether this node is primary with a live instance, the live instance's
latches, and the live (or last) instance incarnation's completion signal
(`none` while pending). -/
structure SystemState where
  record : Option ReshardingDonorDocument
  oplog : List OplogEntry
  catalog : Catalog
  primary : Bool
  latches : CoordinatorLatches
  completion : Option Completion
deriving DecidableEq, Repr

/-- Modelled from the spec: one atomic transition unit of the donor state
machine (the implementation is not in the source tree; the transition
triggers and the timing of the marker writes follow the unit test).
Returns `none` when the instance is blocked (not primary, already complete,
record gone, or waiting on an unfired latch).

* an abort signal transitions directly to the terminal phase from any
  non-terminal phase, without touching collections or the log;
* entering `kDonatingInitialData` writes the single min-fetch boundary
  marker and records the boundary value, atomically with the phase persist;
* entering `kDonatingOplogEntries` requires the recipients-done-cloning
  latch;
* entering `kBlockingWrites` requires the start-blocking-writes latch and
  writes one final reshard marker per participant, atomically with the
  phase persist;
* the committing latch moves `kBlockingWrites` to `kDone`, replacing or
  dropping the source collection;
* at `kDone` the record is deleted and completion resolves OK once the
  committing or aborting decision has been delivered to this incarnation. -/
def donorStep (d : ShardId) (s : SystemState) : Option SystemState :=
  if s.primary = false then none
  else if s.completion.isSome then none
  else match s.record with
  | none => none
  | some r =>
    if s.latches.aborting = true ∧ r.state ≠ .kDone then
      some { s with record := some { r with state := .kDone, aborted := true } }
    else match r.state with
    | .kUnused => none
    | .kPreparingToDonate =>
      some { s with
        oplog := s.oplog ++ [minFetchMarkerEntry]
        record := some { r with
          state := .kDonatingInitialData
          minFetchTimestamp := some s.oplog.length } }
    | .kDonatingInitialData =>
      if s.latches.recipientsDoneCloning = true then
        some { s with record := some { r with state := .kDonatingOplogEntries } }
      else none
    | .kDonatingOplogEntries =>
      if s.latches.startBlockingWrites = true then
        some { s with
          oplog := s.oplog ++ finalOplogEntries r
          record := some { r with state := .kBlockingWrites } }
      else none
    | .kBlockingWrites =>
      if s.latches.committing = true then
        some { s with
          catalog := commitCatalog d r s.catalog
          record := some { r with state := .kDone } }
      else none
    | .kDone =>
      if s.latches.committing = true ∨ s.latches.aborting = true then
        some { s with record := none, completion := some .ok }
      else none

/-- Run the live instance for at most `fuel` atomic transition units,
stopping at the first blocked point. -/
def runInstance (d : ShardId) : Nat → SystemState → SystemState
  | 0, s => s
  | fuel + 1, s =>
    match donorStep d s with
    | none => s
    | some s2 => runInstance d fuel s2

/-- Run the live instance until it blocks. Eight units of fuel always
suffice: every atomic unit strictly advances the phase or deletes the
record. -/
def runToBlocked (d : ShardId) (s : SystemState) : SystemState :=
  runInstance d 8 s

/-- External events driving one operation: the four coordinator
notifications (named as in the test fixture) and the two leadership events. -/
inductive Event where
  | notifyRecipientsDoneCloning
  | notifyToStartBlockingWrites
  | notifyReshardingCommitting
  | notifyReshardingAborting
  | stepDown
  | stepUp
deriving DecidableEq, Repr

/-- The latch set after a coordinator notification is delivered to a live
instance; leadership events leave the latches unchanged here. -/
def deliverSignal (e : Event) (L : CoordinatorLatches) : CoordinatorLatches :=
  match e with
  | .notifyRecipientsDoneCloning => { L with recipientsDoneCloning := true }
  | .notifyToStartBlockingWrites => { L with startBlockingWrites := true }
  | .notifyReshardingCommitting => { L with committing := true }
  | .notifyReshardingAborting => { L with aborting := true }
  | .stepDown => L
  | .stepUp => L

/-- Modelled from the spec: the effect of one external event.

* a coordinator notification on a primary fires the corresponding latch
  (idempotently) and lets the instance run until blocked; on a non-primary
  there is no live instance and the delivery is dropped;
* `stepDown` discards the in-memory instance (latches lost), resolves a
  still-pending completion signal with the leadership-loss error, and leaves
  the persisted record untouched;
* `stepUp` resumes an instance from the persisted record (fresh latches,
  fresh pending completion signal) and lets it run until blocked; if the
  record is gone nothing is resumed. -/
def applyEvent (d : ShardId) (s : SystemState) (e : Event) : SystemState :=
  match e with
  | .stepDown =>
    if s.primary = true then
      { s with
        primary := false
        latches := noLatches
        completion :=
          if s.completion = none then some .interruptedDueToReplStateChange
          else s.completion }
    else s
  | .stepUp =>
    if s.primary = true then s
    else
      runToBlocked d { s with
        primary := true
        latches := noLatches
        completion := if s.record.isSome then none else s.completion }
  | e =>
    if s.primary = true then
      runToBlocked d { s with latches := deliverSignal e s.latches }
    else s

/-- Modelled from the spec: the state right after intake of a fresh
operation: record persisted at phase `kPreparingToDonate`, nothing yet in
the replication log, this node primary with a live instance whose latches
are unfired and whose completion signal is pending. -/
def mkInitial (doc : ReshardingDonorDocument) (cat : Catalog) : SystemState :=
  { record := some { doc with
      state := .kPreparingToDonate
      aborted := false
      minFetchTimestamp := none }
    oplog := []
    catalog := cat
    primary := true
    latches := noLatches
    completion := none }

/-- Run one operation: create it (which immediately advances the instance to
its first blocked point, as `getOrCreate` does in the test) and then apply
the external events in order. -/
def run (d : ShardId) (doc : ReshardingDonorDocument) (cat : Catalog)
    (es : List Event) : SystemState :=
  es.foldl (applyEvent d) (runToBlocked d (mkInitial doc cat))

/-- Number of min-fetch boundary markers in the replication log: entries
recorded under the dedicated oplog-batch-boundary namespace. -/
def minFetchCount (s : SystemState) : Nat :=
  (s.oplog.filter (fun e => e.nss == kForceOplogBatchBoundaryNamespace)).length

/-- Number of final reshard markers for the operation: entries recorded
under the source collection's namespace. -/
def finalOpCount (doc : ReshardingDonorDocument) (s : SystemState) : Nat :=
  (s.oplog.filter (fun e => e.nss == doc.sourceNss)).length

/-- This node's shard identity in the test fixture (`donorShardId` is
`"myShardId"` in the test; identifiers are opaque, embedded as numbers). -/
def donorShardId : ShardId := 10

/-- The test fixture's state document (`makeStateDocument`): participants
`recipient1`, `recipient2`-or-self, `recipient3` (numbers 11, 12, 13, with
the middle one equal to `donorShardId` when this donor is also a
recipient), a fresh source collection identity and a temporary resharding
namespace, starting at `kPreparingToDonate`. -/
def makeStateDocument (isAlsoRecipient : Bool) : ReshardingDonorDocument :=
  { reshardingUUID := 300
    sourceNss := 1
    sourceUUID := 100
    tempReshardingNss := 2
    reshardingKey := 7
    recipientShards := [11, if isAlsoRecipient then donorShardId else 12, 13]
    state := .kPreparingToDonate
    aborted := false
    minFetchTimestamp := none }

/-- The collections the test creates before starting the operation: the
source collection, plus the temporary resharding collection when this donor
is also a recipient. -/
def scenarioCatalog (isAlsoRecipient : Bool) : Catalog :=
  if isAlsoRecipient then [(1, 100), (2, 300)] else [(1, 100)]

/-- Run the test-fixture operation against a sequence of external events. -/
def runScenario (isAlsoRecipient : Bool) (es : List Event) : SystemState :=
  run donorShardId (makeStateDocument isAlsoRecipient)
    (scenarioCatalog isAlsoRecipient) es

/-- The durable, externally observable outcome of a run: persisted record,
collection catalog, replication log, and the completion signal. -/
def observed (s : SystemState) :
    Option ReshardingDonorDocument × Catalog × List OplogEntry × Option Completion :=
  (s.record, s.catalog, s.oplog, s.completion)

/-- The uninterrupted coordinator signal sequence of a committed operation:
recipients-done-cloning, start-blocking-writes, committing. -/
def signalSeq : List Event :=
  [.notifyRecipientsDoneCloning, .notifyToStartBlockingWrites,
   .notifyReshardingCommitting]

/-- The same signal sequence with a leadership loss and resumption inserted
at the k-th phase boundary (remaining signals delivered to the resumed
instance). -/
def interruptedSeq (k : Nat) : List Event :=
  signalSeq.take k ++ [.stepDown, .stepUp] ++ signalSeq.drop k


/-- A live donor-also-recipient instance in BlockingWrites with the commit
decision delivered (concrete input for the committing-outcome witness). -/
def commitOutcomeState : SystemState :=
  { record := some { makeStateDocument true with state := .kBlockingWrites }
    oplog := []
    catalog := scenarioCatalog true
    primary := true
    latches := { recipientsDoneCloning := true, startBlockingWrites := true,
                 committing := true, aborting := false }
    completion := none }

/-- A live donor-only (not-a-participant) instance in BlockingWrites with
the commit decision delivered; as in `DropsSourceCollectionWhenDone`, no
temporary resharding collection exists (concrete input for the drop branch
of the committing-outcome witness). -/
def dropOutcomeState : SystemState :=
  { record := some { makeStateDocument false with state := .kBlockingWrites }
    oplog := []
    catalog := scenarioCatalog false
    primary := true
    latches := { recipientsDoneCloning := true, startBlockingWrites := true,
                 committing := true, aborting := false }
    completion := none }

/-- A live instance in DonatingLogEntries with the abort decision delivered
(concrete input for the aborting-outcome witness). -/
def abortOutcomeState : SystemState :=
  { record := some { makeStateDocument true with state := .kDonatingOplogEntries }
    oplog := [minFetchMarkerEntry]
    catalog := scenarioCatalog true
    primary := true
    latches := { recipientsDoneCloning := true, startBlockingWrites := false,
                 committing := false, aborting := true }
    completion := none }

/-- A live donor-only instance in DonatingLogEntries with the abort decision
delivered (concrete input for the abort-shortcut witness). -/
def abortShortcutState : SystemState :=
  { record := some { makeStateDocument false with state := .kDonatingOplogEntries }
    oplog := [minFetchMarkerEntry]
    catalog := scenarioCatalog false
    primary := true
    latches := { recipientsDoneCloning := true, startBlockingWrites := false,
                 committing := false, aborting := true }
    completion := none }

/-- A live donor-only instance in DonatingLogEntries whose
start-blocking-writes latch has fired (concrete input for the marker-tag
and marker-order witnesses). -/
def blockingWitnessState : SystemState :=
  { record := some { makeStateDocument false with state := .kDonatingOplogEntries }
    oplog := [minFetchMarkerEntry]
    catalog := scenarioCatalog false
    primary := true
    latches := { recipientsDoneCloning := true, startBlockingWrites := true,
                 committing := false, aborting := false }
    completion := none }

/-- Modelled from the spec: duplicate detection in the ordered participant
list. -/
def hasDuplicates : List ShardId → Bool
  | [] => false
  | x :: xs => xs.contains x || hasDuplicates xs

/-- Result of an intake attempt: the updated record store, or a rejected
validation error (which is not a phase of the state machine). -/
inductive IntakeResult where
  | created (store : List ReshardingDonorDocument)
  | validationError
deriving DecidableEq, Repr

/-- Modelled from the spec: intake validation of `create(record)` (the
donor service's intake code is not in the source tree). Intake validates
that `participantSet` has no duplicates and that no record with the same
operation id (`reshardingUUID`) already exists; on success the record is
persisted at phase `kPreparingToDonate`; on validation failure nothing is
created. -/
def create (store : List ReshardingDonorDocument)
    (doc : ReshardingDonorDocument) : IntakeResult :=
  if hasDuplicates doc.recipientShards then .validationError
  else if store.any (fun r => r.reshardingUUID == doc.reshardingUUID) then
    .validationError
  else .created (store ++ [{ doc with
    state := .kPreparingToDonate
    aborted := false
    minFetchTimestamp := none }])

/-- The phase rank of the persisted record; a deleted record counts as past
the terminal phase. -/
def rankOpt (s : SystemState) : Nat :=
  match s.record with
  | some r => r.state.rank
  | none => 6

/-- Termination measure of the live instance: how many atomic units it can
still perform. -/
def stepMeasure (s : SystemState) : Nat :=
  match s.record with
  | some r => 7 - r.state.rank
  | none => 0

/-- The record fields that are immutable for the operation's lifetime agree
with the intake document. -/
def recordMatches (doc r : ReshardingDonorDocument) : Prop :=
  r.reshardingUUID = doc.reshardingUUID ∧ r.sourceNss = doc.sourceNss
    ∧ r.sourceUUID = doc.sourceUUID ∧ r.tempReshardingNss = doc.tempReshardingNss
    ∧ r.recipientShards = doc.recipientShards

/-- Every entry the donor ever writes to the replication log is either the
boundary marker or a final reshard marker of one of its participants. -/
def oplogShape (doc : ReshardingDonorDocument) (l : List OplogEntry) : Prop :=
  ∀ e ∈ l, e = minFetchMarkerEntry ∨ ∃ sh ∈ doc.recipientShards, e = finalOpEntry doc sh

/-- Marker counts of a state with a live record: exactly tied to the
persisted phase on the non-aborted path, bounded on the abort shortcut
(which skips marker writes entirely). -/
def countsFor (doc : ReshardingDonorDocument) (s : SystemState)
    (r : ReshardingDonorDocument) : Prop :=
  recordMatches doc r ∧ 1 ≤ r.state.rank ∧ (r.aborted = true → r.state = .kDone)
    ∧ (if r.aborted = true then
         minFetchCount s ≤ 1
           ∧ (finalOpCount doc s = 0
              ∨ finalOpCount doc s = doc.recipientShards.length)
       else
         minFetchCount s = (if 2 ≤ r.state.rank then 1 else 0)
           ∧ finalOpCount doc s
             = (if 4 ≤ r.state.rank then doc.recipientShards.length else 0))

/-- Reachability invariant for the replication-log markers of one
operation. -/
def markerInv (doc : ReshardingDonorDocument) (s : SystemState) : Prop :=
  oplogShape doc s.oplog
    ∧ ((∃ r, s.record = some r ∧ countsFor doc s r)
       ∨ (s.record = none ∧ minFetchCount s ≤ 1
            ∧ (finalOpCount doc s = 0
               ∨ finalOpCount doc s = doc.recipientShards.length)))

/-- C2: at every phase boundary, losing leadership resolves the interrupted
incarnation's completion signal with the leadership-loss error while the
persisted record is exactly the one of the uninterrupted prefix (untouched,
at the last durably completed phase); resuming after a fresh step-up and
delivering the remaining signals reaches the same terminal outcome
(identical record deletion, catalog, replication log and OK completion) as
the uninterrupted run, in both the donor-only and donor-also-recipient
scenarios. -/
theorem stepdown_stepup_refinement :
    ∀ (isAlsoRecipient : Bool) (k : Fin 3),
      observed (runScenario isAlsoRecipient (interruptedSeq k.1))
          = observed (runScenario isAlsoRecipient signalSeq)
        ∧ (runScenario isAlsoRecipient (signalSeq.take k.1 ++ [.stepDown])).completion
          = some .interruptedDueToReplStateChange
        ∧ (runScenario isAlsoRecipient (signalSeq.take k.1 ++ [.stepDown])).record
          = (runScenario isAlsoRecipient (signalSeq.take k.1)).record
        ∧ (runScenario isAlsoRecipient signalSeq).record = none
        ∧ (runScenario isAlsoRecipient signalSeq).completion = some .ok := by
  decide

/-- C1 counterexample: the single boundary marker is not written on entering
DonatingLogEntries (`kDonatingOplogEntries`). In the freshly created
operation the instance has only ever entered `kDonatingInitialData`, yet the
boundary marker is already in the replication log (count 1, matching the
test `WritesNoOpOplogEntryToGenerateMinFetchTimestamp`, which observes the
marker while the persisted phase is still `kDonatingInitialData`); the
subsequent transition that does enter `kDonatingOplogEntries` writes nothing
at all. -/
theorem minFetch_marker_before_donatingOplogEntries :
    ((runScenario false []).record.map (fun r => r.state))
        = some .kDonatingInitialData
      ∧ minFetchCount (runScenario false []) = 1
      ∧ ((runScenario false [.notifyRecipientsDoneCloning]).record.map
          (fun r => r.state)) = some .kDonatingOplogEntries
      ∧ (runScenario false [.notifyRecipientsDoneCloning]).oplog
        = (runScenario false []).oplog := by
  decide

/-- C8 counterexample: no replication-log marker whatsoever is written by
the transition that enters DonatingLogEntries (`kDonatingOplogEntries`), so
the claim's premise that the single untagged boundary marker is the one
"written on entering DonatingLogEntries" is false: that transition appends
zero entries to the log (the untagged boundary marker was written earlier,
on entering `kDonatingInitialData`). -/
theorem no_marker_written_entering_donatingOplogEntries :
    (runScenario true [.notifyRecipientsDoneCloning]).oplog
        = (runScenario true []).oplog
      ∧ ((runScenario true [.notifyRecipientsDoneCloning]).record.map
          (fun r => r.state)) = some .kDonatingOplogEntries
      ∧ (runScenario true []).oplog.length = 1
      ∧ ((runScenario true []).record.map (fun r => r.state))
        = some .kDonatingInitialData := by
  decide

/-- If the instance performs exactly two atomic units and then blocks,
`runToBlocked` stops exactly there. -/
theorem runToBlocked_eq_of_two (d : ShardId) (s s1 s2 : SystemState)
    (h1 : donorStep d s = some s1) (h2 : donorStep d s1 = some s2)
    (h3 : donorStep d s2 = none) : runToBlocked d s = s2 := by
  simp [runToBlocked, runInstance, h1, h2, h3]

/-- After dropping a namespace no collection is found there. -/
theorem lookupColl_dropCollection (cat : Catalog) (nss : NamespaceString) :
    lookupColl (dropCollection cat nss) nss = none := by
  have hfind : (dropCollection cat nss).find? (fun p => p.1 == nss) = none := by
    rw [List.find?_eq_none]
    intro x hx
    have hmem := List.of_mem_filter hx
    simp at hmem ⊢
    exact hmem
  simp [lookupColl, hfind]

/-- Renaming moves the source collection's content-identity to the target
namespace. -/
theorem lookupColl_renameCollection_dst (cat : Catalog)
    (src dst : NamespaceString) (u : UUID)
    (h : lookupColl cat src = some u) :
    lookupColl (renameCollection cat src dst) dst = some u := by
  unfold renameCollection
  rw [h]
  have hnone : (dropCollection (dropCollection cat src) dst).find?
      (fun p => p.1 == dst) = none := by
    have hdrop := lookupColl_dropCollection (dropCollection cat src) dst
    unfold lookupColl at hdrop
    simpa using hdrop
  unfold lookupColl
  rw [List.find?_append, hnone]
  simp [List.find?_cons]

/-- C3: when the committing signal fires for an instance in BlockingWrites,
the instance runs to its terminal outcome: if this node is a member of the
participant set, the source collection is atomically replaced by the
destination (temporary resharding) collection, so the collection afterwards
present under the source namespace carries the destination's
content-identity; otherwise the source collection is dropped; in both cases
the persisted record is deleted and the completion signal resolves OK. -/
theorem committing_outcome (d : ShardId) (s : SystemState)
    (r : ReshardingDonorDocument)
    (hrec : s.record = some r) (hst : r.state = .kBlockingWrites)
    (hp : s.primary = true) (hc : s.completion = none)
    (hcommit : s.latches.committing = true)
    (habort : s.latches.aborting = false) :
    (runToBlocked d s).record = none
      ∧ (runToBlocked d s).completion = some Completion.ok
      ∧ (runToBlocked d s).catalog = commitCatalog d r s.catalog
      ∧ (∀ tempU : UUID, r.recipientShards.contains d = true →
          lookupColl s.catalog r.tempReshardingNss = some tempU →
          lookupColl (runToBlocked d s).catalog r.sourceNss = some tempU)
      ∧ (r.recipientShards.contains d = false →
          lookupColl (runToBlocked d s).catalog r.sourceNss = none) := by
  have h1 : donorStep d s = some { s with
      catalog := commitCatalog d r s.catalog
      record := some { r with state := .kDone } } := by
    simp [donorStep, hrec, hst, hp, hc, hcommit, habort]
  have h2 : donorStep d { s with
      catalog := commitCatalog d r s.catalog
      record := some { r with state := .kDone } } = some { s with
      catalog := commitCatalog d r s.catalog
      record := none
      completion := some .ok } := by
    simp [donorStep, hp, hc, hcommit]
  have h3 : donorStep d { s with
      catalog := commitCatalog d r s.catalog
      record := none
      completion := some .ok } = none := by
    simp [donorStep]
  rw [runToBlocked_eq_of_two d s _ _ h1 h2 h3]
  refine ⟨rfl, rfl, rfl, ?_, ?_⟩
  · intro tempU hmem htemp
    simp only [commitCatalog, hmem, if_pos]
    exact lookupColl_renameCollection_dst _ _ _ _ htemp
  · intro hmem
    simp only [commitCatalog, hmem, Bool.false_eq_true, if_false]
    exact lookupColl_dropCollection _ _

/-- C4: when the aborting signal fires for an instance in any non-terminal
phase, the instance runs to its terminal outcome: the persisted record is
deleted, the catalog and the replication log are untouched (in particular
the source collection stays present with its original content-identity),
and the completion signal resolves OK: graceful abort is a valid terminal
outcome, not an error. -/
theorem aborting_outcome (d : ShardId) (s : SystemState)
    (r : ReshardingDonorDocument)
    (hrec : s.record = some r) (hst : r.state ≠ .kDone)
    (hp : s.primary = true) (hc : s.completion = none)
    (habort : s.latches.aborting = true) :
    (runToBlocked d s).record = none
      ∧ (runToBlocked d s).completion = some Completion.ok
      ∧ (runToBlocked d s).catalog = s.catalog
      ∧ (runToBlocked d s).oplog = s.oplog := by
  have h1 : donorStep d s = some { s with
      record := some { r with state := .kDone, aborted := true } } := by
    simp [donorStep, hrec, hp, hc, habort, hst]
  have h2 : donorStep d { s with
      record := some { r with state := .kDone, aborted := true } } = some { s with
      record := none
      completion := some .ok } := by
    simp [donorStep, hp, hc, habort]
  have h3 : donorStep d { s with
      record := none
      completion := some .ok } = none := by
    simp [donorStep]
  rw [runToBlocked_eq_of_two d s _ _ h1 h2 h3]
  exact ⟨rfl, rfl, rfl, rfl⟩

/-- Exhaustive characterization of a successful atomic transition unit: the
instance is live, and the unit is the abort shortcut, one of the four
forward transitions, or the terminal record removal. -/
theorem donorStep_cases (d : ShardId) (s s' : SystemState)
    (h : donorStep d s = some s') :
    ∃ r, s.record = some r ∧ s.primary = true ∧ s.completion = none ∧
    ((s' = { s with record := some { r with state := .kDone, aborted := true } }
        ∧ r.state ≠ .kDone ∧ s.latches.aborting = true)
     ∨ (s' = { s with
          oplog := s.oplog ++ [minFetchMarkerEntry]
          record := some { r with
            state := .kDonatingInitialData
            minFetchTimestamp := some s.oplog.length } }
        ∧ r.state = .kPreparingToDonate)
     ∨ (s' = { s with record := some { r with state := .kDonatingOplogEntries } }
        ∧ r.state = .kDonatingInitialData)
     ∨ (s' = { s with
          oplog := s.oplog ++ finalOplogEntries r
          record := some { r with state := .kBlockingWrites } }
        ∧ r.state = .kDonatingOplogEntries)
     ∨ (s' = { s with
          catalog := commitCatalog d r s.catalog
          record := some { r with state := .kDone } }
        ∧ r.state = .kBlockingWrites)
     ∨ (s' = { s with record := none, completion := some .ok }
        ∧ r.state = .kDone)) := by
  unfold donorStep at h
  split at h
  · exact absurd h (by simp)
  rename_i hp
  split at h
  · exact absurd h (by simp)
  rename_i hc
  split at h
  · exact absurd h (by simp)
  rename_i r hrec
  refine ⟨r, hrec, by simpa using hp, by simpa using hc, ?_⟩
  split at h
  · rename_i hab
    cases h
    exact Or.inl ⟨rfl, hab.2, hab.1⟩
  rename_i hab
  split at h
  · exact absurd h (by simp)
  · rename_i hst
    cases h
    exact Or.inr (Or.inl ⟨rfl, hst⟩)
  · rename_i hst
    split at h
    · cases h
      exact Or.inr (Or.inr (Or.inl ⟨rfl, hst⟩))
    · exact absurd h (by simp)
  · rename_i hst
    split at h
    · cases h
      exact Or.inr (Or.inr (Or.inr (Or.inl ⟨rfl, hst⟩)))
    · exact absurd h (by simp)
  · rename_i hst
    split at h
    · cases h
      exact Or.inr (Or.inr (Or.inr (Or.inr (Or.inl ⟨rfl, hst⟩))))
    · exact absurd h (by simp)
  · rename_i hst
    split at h
    · cases h
      exact Or.inr (Or.inr (Or.inr (Or.inr (Or.inr ⟨rfl, hst⟩))))
    · exact absurd h (by simp)

/-- Phase ranks are bounded by the terminal rank. -/
theorem rank_le_five (st : DonorStateEnum) : st.rank ≤ 5 := by
  cases st <;> simp [DonorStateEnum.rank]

/-- A non-terminal phase ranks strictly below the terminal phase. -/
theorem rank_le_four_of_ne_done (st : DonorStateEnum) (h : st ≠ .kDone) :
    st.rank ≤ 4 := by
  cases st
  case kDone => exact absurd rfl h
  all_goals simp [DonorStateEnum.rank]


/-- Every atomic unit moves the persisted phase forward (never backward). -/
theorem donorStep_rank_mono (d : ShardId) (s s' : SystemState)
    (h : donorStep d s = some s') : rankOpt s ≤ rankOpt s' := by
  obtain ⟨r, hrec, -, -, hcase⟩ := donorStep_cases d s s' h
  rcases hcase with ⟨he, -, -⟩ | ⟨he, hst⟩ | ⟨he, hst⟩ | ⟨he, hst⟩ | ⟨he, hst⟩ | ⟨he, hst⟩
  all_goals subst he
  · simp [rankOpt, hrec, DonorStateEnum.rank]
    exact rank_le_five r.state
  all_goals simp [rankOpt, hrec, hst, DonorStateEnum.rank]

/-- Every atomic unit strictly decreases the termination measure. -/
theorem donorStep_measure_lt (d : ShardId) (s s' : SystemState)
    (h : donorStep d s = some s') : stepMeasure s' < stepMeasure s := by
  obtain ⟨r, hrec, -, -, hcase⟩ := donorStep_cases d s s' h
  rcases hcase with ⟨he, hne, -⟩ | ⟨he, hst⟩ | ⟨he, hst⟩ | ⟨he, hst⟩ | ⟨he, hst⟩ | ⟨he, hst⟩
  all_goals subst he
  · have h4 := rank_le_four_of_ne_done r.state hne
    have hL : stepMeasure { s with
        record := some { r with state := DonorStateEnum.kDone, aborted := true } } = 2 := by
      simp [stepMeasure, DonorStateEnum.rank]
    have hR : stepMeasure s = 7 - r.state.rank := by
      simp [stepMeasure, hrec]
    rw [hL, hR]
    omega
  all_goals simp [stepMeasure, hrec, hst, DonorStateEnum.rank]

/-- Atomic units do not touch leadership or the latches. -/
theorem donorStep_preserves (d : ShardId) (s s' : SystemState)
    (h : donorStep d s = some s') :
    s'.primary = s.primary ∧ s'.latches = s.latches := by
  obtain ⟨r, -, -, -, hcase⟩ := donorStep_cases d s s' h
  rcases hcase with ⟨he, -, -⟩ | ⟨he, -⟩ | ⟨he, -⟩ | ⟨he, -⟩ | ⟨he, -⟩ | ⟨he, -⟩ <;>
      subst he <;> exact ⟨rfl, rfl⟩

/-- Without a persisted record there is nothing for the instance to do. -/
theorem donorStep_none_of_record_none (d : ShardId) (s : SystemState)
    (h : s.record = none) : donorStep d s = none := by
  unfold donorStep
  rw [h]
  simp

/-- Running a blocked instance is a no-op. -/
theorem runInstance_eq_self (d : ShardId) (n : Nat) (s : SystemState)
    (h : donorStep d s = none) : runInstance d n s = s := by
  cases n with
  | zero => rfl
  | succ n => simp [runInstance, h]

/-- With fuel at least the termination measure, the instance runs all the
way to a blocked state. -/
theorem runInstance_blocked (d : ShardId) :
    ∀ (n : Nat) (s : SystemState), stepMeasure s ≤ n →
      donorStep d (runInstance d n s) = none := by
  intro n
  induction n with
  | zero =>
    intro s hle
    have hrec : s.record = none := by
      cases hr : s.record with
      | none => rfl
      | some r =>
        have h5 := rank_le_five r.state
        have hle2 : 7 - r.state.rank ≤ 0 := by
          simpa [stepMeasure, hr] using hle
        omega
    rw [runInstance_eq_self d 0 s (donorStep_none_of_record_none d s hrec)]
    exact donorStep_none_of_record_none d s hrec
  | succ n ih =>
    intro s hle
    cases hstep : donorStep d s with
    | none =>
      rw [runInstance_eq_self d _ s hstep]
      exact hstep
    | some s2 =>
      have hlt := donorStep_measure_lt d s s2 hstep
      have : runInstance d (n + 1) s = runInstance d n s2 := by
        simp [runInstance, hstep]
      rw [this]
      exact ih s2 (by omega)

/-- The termination measure is bounded. -/
theorem stepMeasure_le (s : SystemState) : stepMeasure s ≤ 8 := by
  unfold stepMeasure
  cases s.record with
  | none => simp
  | some r =>
    show 7 - r.state.rank ≤ 8
    omega

/-- `runToBlocked` really blocks. -/
theorem runToBlocked_fix (d : ShardId) (s : SystemState) :
    donorStep d (runToBlocked d s) = none :=
  runInstance_blocked d 8 s (stepMeasure_le s)

/-- `runToBlocked` is idempotent. -/
theorem runToBlocked_idem (d : ShardId) (s : SystemState) :
    runToBlocked d (runToBlocked d s) = runToBlocked d s :=
  runInstance_eq_self d 8 _ (runToBlocked_fix d s)

/-- Running the instance does not touch leadership or the latches. -/
theorem runInstance_preserves (d : ShardId) :
    ∀ (n : Nat) (s : SystemState),
      (runInstance d n s).primary = s.primary
        ∧ (runInstance d n s).latches = s.latches := by
  intro n
  induction n with
  | zero => exact fun s => ⟨rfl, rfl⟩
  | succ n ih =>
    intro s
    cases hstep : donorStep d s with
    | none => rw [runInstance_eq_self d _ s hstep]; exact ⟨rfl, rfl⟩
    | some s2 =>
      have hu : runInstance d (n + 1) s = runInstance d n s2 := by
        simp [runInstance, hstep]
      rw [hu]
      have h1 := donorStep_preserves d s s2 hstep
      exact ⟨(ih s2).1.trans h1.1, (ih s2).2.trans h1.2⟩

/-- Concrete witness for the committing-outcome theorem, exercising both
branches: in the donor-also-recipient scenario the source namespace ends up
carrying the temporary resharding collection's content-identity; in the
donor-only scenario (no temporary collection exists, as in
`DropsSourceCollectionWhenDone`) the source collection is dropped; in both
the record is gone and completion resolves OK. -/
theorem committing_outcome_witness :
    ((runToBlocked donorShardId commitOutcomeState).record = none
      ∧ (runToBlocked donorShardId commitOutcomeState).completion
        = some Completion.ok
      ∧ lookupColl (runToBlocked donorShardId commitOutcomeState).catalog 1
        = some 300)
    ∧ ((runToBlocked donorShardId dropOutcomeState).record = none
      ∧ (runToBlocked donorShardId dropOutcomeState).completion
        = some Completion.ok
      ∧ lookupColl (runToBlocked donorShardId dropOutcomeState).catalog 1
        = none) := by
  have h1 := committing_outcome donorShardId commitOutcomeState
      { makeStateDocument true with state := .kBlockingWrites }
      rfl rfl rfl rfl rfl rfl
  have h2 := committing_outcome donorShardId dropOutcomeState
      { makeStateDocument false with state := .kBlockingWrites }
      rfl rfl rfl rfl rfl rfl
  exact ⟨⟨h1.1, h1.2.1, h1.2.2.2.1 300 (by decide) (by decide)⟩,
    ⟨h2.1, h2.2.1, h2.2.2.2.2 (by decide)⟩⟩

/-- Concrete witness for the aborting-outcome theorem: abort from
DonatingLogEntries deletes the record, resolves OK and leaves the catalog
untouched. -/
theorem aborting_outcome_witness :
    (runToBlocked donorShardId abortOutcomeState).record = none
      ∧ (runToBlocked donorShardId abortOutcomeState).completion = some Completion.ok
      ∧ (runToBlocked donorShardId abortOutcomeState).catalog = scenarioCatalog true := by
  have h := aborting_outcome donorShardId abortOutcomeState
      { makeStateDocument true with state := .kDonatingOplogEntries }
      rfl (by decide) rfl rfl rfl
  exact ⟨h.1, h.2.1, h.2.2.1⟩

/-- Advancing the instance never decreases the phase rank. -/
theorem runInstance_rank_mono (d : ShardId) :
    ∀ (n : Nat) (s : SystemState), rankOpt s ≤ rankOpt (runInstance d n s) := by
  intro n
  induction n with
  | zero => exact fun s => le_refl _
  | succ n ih =>
    intro s
    cases hstep : donorStep d s with
    | none =>
      rw [runInstance_eq_self d _ s hstep]
    | some s2 =>
      have hu : runInstance d (n + 1) s = runInstance d n s2 := by
        simp [runInstance, hstep]
      rw [hu]
      exact le_trans (donorStep_rank_mono d s s2 hstep) (ih s2)

/-- One external event never decreases the phase rank. -/
theorem applyEvent_rank_mono (d : ShardId) (s : SystemState) (e : Event) :
    rankOpt s ≤ rankOpt (applyEvent d s e) := by
  have hrb : ∀ t : SystemState, t.record = s.record →
      rankOpt s ≤ rankOpt (runToBlocked d t) := by
    intro t ht
    have heq : rankOpt t = rankOpt s := by
      unfold rankOpt
      rw [ht]
    calc rankOpt s = rankOpt t := heq.symm
      _ ≤ rankOpt (runToBlocked d t) := runInstance_rank_mono d 8 t
  cases e with
  | stepDown =>
    simp only [applyEvent]
    split
    · exact le_of_eq rfl
    · exact le_refl _
  | stepUp =>
    simp only [applyEvent]
    split
    · exact le_refl _
    · exact hrb _ rfl
  | notifyRecipientsDoneCloning =>
    simp only [applyEvent]
    split
    · exact hrb _ rfl
    · exact le_refl _
  | notifyToStartBlockingWrites =>
    simp only [applyEvent]
    split
    · exact hrb _ rfl
    · exact le_refl _
  | notifyReshardingCommitting =>
    simp only [applyEvent]
    split
    · exact hrb _ rfl
    · exact le_refl _
  | notifyReshardingAborting =>
    simp only [applyEvent]
    split
    · exact hrb _ rfl
    · exact le_refl _

/-- A whole tail of external events never decreases the phase rank. -/
theorem foldl_rank_mono (d : ShardId) (es : List Event) :
    ∀ s : SystemState, rankOpt s ≤ rankOpt (es.foldl (applyEvent d) s) := by
  induction es with
  | nil => exact fun s => le_refl _
  | cons e t ih =>
    intro s
    rw [List.foldl_cons]
    exact le_trans (applyEvent_rank_mono d s e) (ih _)

/-- C5: along every reachable execution of one operation the persisted
phase is non-decreasing in the order PreparingToDonate <
DonatingInitialData < DonatingLogEntries < BlockingWrites < Done: extending
any event sequence never lowers the rank of the persisted phase (a deleted
terminal record ranks above Done); and the abort signal transitions
directly to the terminal phase from any non-terminal phase in one atomic
unit. -/
theorem phase_monotonic :
    (∀ (d : ShardId) (doc : ReshardingDonorDocument) (cat : Catalog)
        (es es2 : List Event),
        rankOpt (run d doc cat es) ≤ rankOpt (run d doc cat (es ++ es2)))
      ∧ (∀ (d : ShardId) (s : SystemState) (r : ReshardingDonorDocument),
          s.record = some r → r.state ≠ .kDone → s.primary = true →
          s.completion = none → s.latches.aborting = true →
          donorStep d s = some { s with
            record := some { r with state := .kDone, aborted := true } }) := by
  constructor
  · intro d doc cat es es2
    unfold run
    rw [List.foldl_append]
    exact foldl_rank_mono d es2 _
  · intro d s r hrec hne hp hc hab
    simp [donorStep, hrec, hp, hc, hab, hne]

/-- Concrete witness for phase monotonicity: extending the empty event
sequence by an abort never lowers the rank, and the abort shortcut jumps a
DonatingLogEntries instance straight to the terminal phase. -/
theorem phase_monotonic_witness :
    rankOpt (run donorShardId (makeStateDocument false) (scenarioCatalog false) [])
        ≤ rankOpt (run donorShardId (makeStateDocument false) (scenarioCatalog false)
            ([] ++ [Event.notifyReshardingAborting]))
      ∧ donorStep donorShardId abortShortcutState = some { abortShortcutState with
          record := some { { makeStateDocument false with
              state := DonorStateEnum.kDonatingOplogEntries } with
            state := .kDone, aborted := true } } :=
  ⟨phase_monotonic.1 donorShardId (makeStateDocument false) (scenarioCatalog false)
      [] [Event.notifyReshardingAborting],
   phase_monotonic.2 donorShardId abortShortcutState
      { makeStateDocument false with state := .kDonatingOplogEntries }
      rfl (by decide) rfl rfl rfl⟩

/-- Firing the same latch twice equals firing it once. -/
theorem deliverSignal_idem (e : Event) (L : CoordinatorLatches) :
    deliverSignal e (deliverSignal e L) = deliverSignal e L := by
  cases e <;> rfl

/-- `runToBlocked` does not touch leadership or the latches. -/
theorem runToBlocked_preserves (d : ShardId) (s : SystemState) :
    (runToBlocked d s).primary = s.primary
      ∧ (runToBlocked d s).latches = s.latches :=
  runInstance_preserves d 8 s

/-- Redundant delivery of one coordinator notification has no further
effect, for any notification whose behaviour is latch-firing. -/
theorem applyEvent_notify_idem (d : ShardId) (s : SystemState) (e : Event)
    (he : ∀ t : SystemState, applyEvent d t e =
      if t.primary = true then
        runToBlocked d { t with latches := deliverSignal e t.latches }
      else t) :
    applyEvent d (applyEvent d s e) e = applyEvent d s e := by
  by_cases hp : s.primary = true
  · rw [he s, if_pos hp]
    have hprim : (runToBlocked d { s with latches := deliverSignal e s.latches }).primary
        = true := by
      rw [(runToBlocked_preserves d _).1]
      exact hp
    have hlat : (runToBlocked d { s with latches := deliverSignal e s.latches }).latches
        = deliverSignal e s.latches :=
      (runToBlocked_preserves d _).2
    rw [he (runToBlocked d { s with latches := deliverSignal e s.latches }), if_pos hprim]
    have hfix : deliverSignal e
          ((runToBlocked d { s with latches := deliverSignal e s.latches }).latches)
        = (runToBlocked d { s with latches := deliverSignal e s.latches }).latches := by
      rw [hlat, deliverSignal_idem]
    rw [hfix]
    exact runToBlocked_idem d _
  · rw [he s, if_neg hp, he s, if_neg hp]

/-- C6: each of the four coordinator notifications fires its latch exactly
once per operation: delivering the same notification a second or further
time after the first leaves the entire system state unchanged, in every
state. -/
theorem notify_latches_idempotent :
    ∀ (d : ShardId) (s : SystemState),
      applyEvent d (applyEvent d s .notifyRecipientsDoneCloning)
            .notifyRecipientsDoneCloning
          = applyEvent d s .notifyRecipientsDoneCloning
        ∧ applyEvent d (applyEvent d s .notifyToStartBlockingWrites)
            .notifyToStartBlockingWrites
          = applyEvent d s .notifyToStartBlockingWrites
        ∧ applyEvent d (applyEvent d s .notifyReshardingCommitting)
            .notifyReshardingCommitting
          = applyEvent d s .notifyReshardingCommitting
        ∧ applyEvent d (applyEvent d s .notifyReshardingAborting)
            .notifyReshardingAborting
          = applyEvent d s .notifyReshardingAborting :=
  fun d s =>
    ⟨applyEvent_notify_idem d s _ (fun _ => rfl),
     applyEvent_notify_idem d s _ (fun _ => rfl),
     applyEvent_notify_idem d s _ (fun _ => rfl),
     applyEvent_notify_idem d s _ (fun _ => rfl)⟩

/-- Length of a filtered map when the filter accepts every image. -/
theorem filter_map_length_eq {α β : Type} (f : α → β) (p : β → Bool)
    (l : List α) (h : ∀ x, p (f x) = true) :
    ((l.map f).filter p).length = l.length := by
  induction l with
  | nil => rfl
  | cons a t ih => simp [List.map_cons, List.filter_cons, h a, ih]

/-- Length of a filtered map when the filter rejects every image. -/
theorem filter_map_length_zero {α β : Type} (f : α → β) (p : β → Bool)
    (l : List α) (h : ∀ x, p (f x) = false) :
    ((l.map f).filter p).length = 0 := by
  induction l with
  | nil => rfl
  | cons a t ih => simp [List.map_cons, List.filter_cons, h a, ih]

/-- A final reshard marker only reads the immutable record fields. -/
theorem finalOpEntry_eq (doc r : ReshardingDonorDocument)
    (hm : recordMatches doc r) (sh : ShardId) :
    finalOpEntry r sh = finalOpEntry doc sh := by
  unfold finalOpEntry
  rw [hm.1, hm.2.1, hm.2.2.1]

/-- The marker invariant only looks at the record and the log. -/
theorem markerInv_congr (doc : ReshardingDonorDocument) (s s' : SystemState)
    (hrec : s'.record = s.record) (hop : s'.oplog = s.oplog)
    (h : markerInv doc s) : markerInv doc s' := by
  unfold markerInv countsFor minFetchCount finalOpCount at h ⊢
  rw [hrec, hop]
  exact h

/-- Appending to the log adds the appended boundary markers to the count. -/
theorem minFetchCount_append (s t : SystemState) (L : List OplogEntry)
    (h : t.oplog = s.oplog ++ L) :
    minFetchCount t = minFetchCount s
      + (L.filter (fun e => e.nss == kForceOplogBatchBoundaryNamespace)).length := by
  unfold minFetchCount
  rw [h, List.filter_append, List.length_append]

/-- Appending to the log adds the appended final markers to the count. -/
theorem finalOpCount_append (doc : ReshardingDonorDocument) (s t : SystemState)
    (L : List OplogEntry) (h : t.oplog = s.oplog ++ L) :
    finalOpCount doc t = finalOpCount doc s
      + (L.filter (fun e => e.nss == doc.sourceNss)).length := by
  unfold finalOpCount
  rw [h, List.filter_append, List.length_append]

/-- The boundary marker is counted as a boundary marker. -/
theorem minFetch_filter_boundary :
    ([minFetchMarkerEntry].filter
      (fun e => e.nss == kForceOplogBatchBoundaryNamespace)).length = 1 := by
  decide

/-- The boundary marker is not attributed to the source namespace. -/
theorem minFetch_filter_src (doc : ReshardingDonorDocument)
    (hns : doc.sourceNss ≠ kForceOplogBatchBoundaryNamespace) :
    ([minFetchMarkerEntry].filter (fun e => e.nss == doc.sourceNss)).length = 0 := by
  have : (kForceOplogBatchBoundaryNamespace == doc.sourceNss) = false :=
    beq_eq_false_iff_ne.mpr (Ne.symm hns)
  simp [minFetchMarkerEntry, List.filter_cons, this]

/-- Every final marker is attributed to the source namespace. -/
theorem final_filter_src (doc r : ReshardingDonorDocument)
    (hm : recordMatches doc r) :
    ((finalOplogEntries r).filter (fun e => e.nss == doc.sourceNss)).length
      = doc.recipientShards.length := by
  unfold finalOplogEntries
  rw [← hm.2.2.2.2]
  exact filter_map_length_eq _ _ _ (fun sh => by simp [finalOpEntry, hm.2.1])

/-- No final marker lands in the batch-boundary namespace. -/
theorem final_filter_boundary (doc r : ReshardingDonorDocument)
    (hm : recordMatches doc r)
    (hns : doc.sourceNss ≠ kForceOplogBatchBoundaryNamespace) :
    ((finalOplogEntries r).filter
      (fun e => e.nss == kForceOplogBatchBoundaryNamespace)).length = 0 := by
  unfold finalOplogEntries
  refine filter_map_length_zero _ _ _ (fun sh => ?_)
  have : (r.sourceNss == kForceOplogBatchBoundaryNamespace) = false := by
    rw [hm.2.1]
    exact beq_eq_false_iff_ne.mpr hns
  simp [finalOpEntry, this]

/-- An aborted record is terminal; contrapositive used in each forward
transition. -/
theorem aborted_false_of_state (r : ReshardingDonorDocument)
    (habdone : r.aborted = true → r.state = .kDone) (hne : r.state ≠ .kDone) :
    r.aborted = false := by
  cases hx : r.aborted with
  | false => rfl
  | true => exact absurd (habdone hx) hne

/-- Eliminate a Bool-guarded conditional proposition, false guard. -/
theorem if_bool_false {A B : Prop} {b : Bool} (hb : b = false)
    (h : if b = true then A else B) : B := by
  rw [hb] at h
  simpa using h

/-- Eliminate a Bool-guarded conditional proposition, true guard. -/
theorem if_bool_true {A B : Prop} {b : Bool} (hb : b = true)
    (h : if b = true then A else B) : A := by
  rw [hb] at h
  simpa using h

/-- Introduce a Bool-guarded conditional proposition, false guard. -/
theorem if_bool_intro_false {A B : Prop} {b : Bool} (hb : b = false) (h : B) :
    if b = true then A else B := by
  rw [hb]
  simpa using h

/-- The marker invariant is preserved by every atomic transition unit. -/
theorem markerInv_step (d : ShardId) (doc : ReshardingDonorDocument)
    (hns : doc.sourceNss ≠ kForceOplogBatchBoundaryNamespace)
    (s s' : SystemState) (hinv : markerInv doc s)
    (h : donorStep d s = some s') : markerInv doc s' := by
  obtain ⟨r, hrec, -, -, hcase⟩ := donorStep_cases d s s' h
  obtain ⟨hshape, hdisj⟩ := hinv
  have hcounts : countsFor doc s r := by
    rcases hdisj with ⟨r2, hr2, hc2⟩ | ⟨hnone, -⟩
    · have h12 : r2 = r := Option.some.inj (hr2.symm.trans hrec)
      exact h12 ▸ hc2
    · rw [hrec] at hnone
      exact absurd hnone (by simp)
  obtain ⟨hm, hrank, habdone, hcnt⟩ := hcounts
  rcases hcase with ⟨he, hne, -⟩ | ⟨he, hst⟩ | ⟨he, hst⟩ | ⟨he, hst⟩ | ⟨he, hst⟩ | ⟨he, hst⟩
  -- abort shortcut: log untouched, record jumps to terminal, aborted latched
  · subst he
    have hab : r.aborted = false := aborted_false_of_state r habdone hne
    have hcnt2 := if_bool_false hab hcnt
    refine ⟨hshape, Or.inl ⟨_, rfl, hm, by simp [DonorStateEnum.rank],
        fun _ => rfl, ?_⟩⟩
    show (if true = true then
        minFetchCount s ≤ 1
          ∧ (finalOpCount doc s = 0
             ∨ finalOpCount doc s = doc.recipientShards.length)
      else _)
    rw [if_pos rfl]
    constructor
    · rw [hcnt2.1]
      split <;> omega
    · rw [hcnt2.2]
      split
      · exact Or.inr rfl
      · exact Or.inl rfl
  -- entering kDonatingInitialData: the single boundary marker is written
  · subst he
    have hab : r.aborted = false :=
      aborted_false_of_state r habdone (by rw [hst]; decide)
    have hcnt2 := if_bool_false hab hcnt
    rw [hst] at hcnt2
    simp only [DonorStateEnum.rank] at hcnt2
    norm_num at hcnt2
    have emin := minFetchCount_append s { s with
      oplog := s.oplog ++ [minFetchMarkerEntry]
      record := some { r with
        state := .kDonatingInitialData
        minFetchTimestamp := some s.oplog.length } } [minFetchMarkerEntry] rfl
    have efin := finalOpCount_append doc s { s with
      oplog := s.oplog ++ [minFetchMarkerEntry]
      record := some { r with
        state := .kDonatingInitialData
        minFetchTimestamp := some s.oplog.length } } [minFetchMarkerEntry] rfl
    rw [minFetch_filter_boundary] at emin
    rw [minFetch_filter_src doc hns] at efin
    refine ⟨?_, Or.inl ⟨_, rfl, hm, by simp [DonorStateEnum.rank], ?_, ?_⟩⟩
    · intro e he2
      rcases List.mem_append.mp he2 with h1 | h1
      · exact hshape e h1
      · rw [List.mem_singleton.mp h1]
        exact Or.inl rfl
    · intro hx
      have hx2 : r.aborted = true := hx
      rw [hab] at hx2
      exact absurd hx2 (by decide)
    · refine if_bool_intro_false hab ?_
      constructor
      · rw [emin, hcnt2.1]
        simp [DonorStateEnum.rank]
      · rw [efin, hcnt2.2]
        simp [DonorStateEnum.rank]
  -- entering kDonatingOplogEntries: nothing is written
  · subst he
    have hab : r.aborted = false :=
      aborted_false_of_state r habdone (by rw [hst]; decide)
    have hcnt2 := if_bool_false hab hcnt
    rw [hst] at hcnt2
    simp only [DonorStateEnum.rank] at hcnt2
    norm_num at hcnt2
    refine ⟨hshape, Or.inl ⟨_, rfl, hm, by simp [DonorStateEnum.rank], ?_, ?_⟩⟩
    · intro hx
      have hx2 : r.aborted = true := hx
      rw [hab] at hx2
      exact absurd hx2 (by decide)
    · refine if_bool_intro_false hab ?_
      constructor
      · show minFetchCount s = _
        rw [hcnt2.1]
        simp [DonorStateEnum.rank]
      · show finalOpCount doc s = _
        rw [hcnt2.2]
        simp [DonorStateEnum.rank]
  -- entering kBlockingWrites: one final marker per participant is written
  · subst he
    have hab : r.aborted = false :=
      aborted_false_of_state r habdone (by rw [hst]; decide)
    have hcnt2 := if_bool_false hab hcnt
    rw [hst] at hcnt2
    simp only [DonorStateEnum.rank] at hcnt2
    norm_num at hcnt2
    have emin := minFetchCount_append s { s with
      oplog := s.oplog ++ finalOplogEntries r
      record := some { r with state := .kBlockingWrites } }
      (finalOplogEntries r) rfl
    have efin := finalOpCount_append doc s { s with
      oplog := s.oplog ++ finalOplogEntries r
      record := some { r with state := .kBlockingWrites } }
      (finalOplogEntries r) rfl
    rw [final_filter_boundary doc r hm hns] at emin
    rw [final_filter_src doc r hm] at efin
    refine ⟨?_, Or.inl ⟨_, rfl, hm, by simp [DonorStateEnum.rank], ?_, ?_⟩⟩
    · intro e he2
      rcases List.mem_append.mp he2 with h1 | h1
      · exact hshape e h1
      · obtain ⟨sh, hsh, hesh⟩ := List.mem_map.mp h1
        refine Or.inr ⟨sh, ?_, ?_⟩
        · rw [← hm.2.2.2.2]
          exact hsh
        · rw [← hesh]
          exact finalOpEntry_eq doc r hm sh
    · intro hx
      have hx2 : r.aborted = true := hx
      rw [hab] at hx2
      exact absurd hx2 (by decide)
    · refine if_bool_intro_false hab ?_
      constructor
      · rw [emin, hcnt2.1]
        simp [DonorStateEnum.rank]
      · rw [efin, hcnt2.2]
        simp [DonorStateEnum.rank]
  -- committing: catalog changes, log untouched, record reaches terminal
  · subst he
    have hab : r.aborted = false :=
      aborted_false_of_state r habdone (by rw [hst]; decide)
    have hcnt2 := if_bool_false hab hcnt
    rw [hst] at hcnt2
    simp only [DonorStateEnum.rank] at hcnt2
    norm_num at hcnt2
    refine ⟨hshape, Or.inl ⟨_, rfl, hm, by simp [DonorStateEnum.rank],
        fun _ => rfl, ?_⟩⟩
    refine if_bool_intro_false hab ?_
    constructor
    · show minFetchCount s = _
      rw [hcnt2.1]
      simp [DonorStateEnum.rank]
    · show finalOpCount doc s = _
      rw [hcnt2.2]
      simp [DonorStateEnum.rank]
  -- terminal removal: the record disappears, counts stay bounded
  · subst he
    refine ⟨hshape, Or.inr ⟨rfl, ?_, ?_⟩⟩
    · show minFetchCount s ≤ 1
      cases hab : r.aborted with
      | true => exact (if_bool_true hab hcnt).1
      | false =>
        have hcnt2 := if_bool_false hab hcnt
        rw [hcnt2.1]
        split <;> omega
    · show finalOpCount doc s = 0 ∨ finalOpCount doc s = doc.recipientShards.length
      cases hab : r.aborted with
      | true => exact (if_bool_true hab hcnt).2
      | false =>
        have hcnt2 := if_bool_false hab hcnt
        rw [hcnt2.2, hst]
        simp [DonorStateEnum.rank]

/-- The marker invariant is preserved by running the instance. -/
theorem markerInv_runInstance (d : ShardId) (doc : ReshardingDonorDocument)
    (hns : doc.sourceNss ≠ kForceOplogBatchBoundaryNamespace) :
    ∀ (n : Nat) (s : SystemState), markerInv doc s →
      markerInv doc (runInstance d n s) := by
  intro n
  induction n with
  | zero => exact fun s hs => hs
  | succ n ih =>
    intro s hs
    cases hstep : donorStep d s with
    | none => rw [runInstance_eq_self d _ s hstep]; exact hs
    | some s2 =>
      have hu : runInstance d (n + 1) s = runInstance d n s2 := by
        simp [runInstance, hstep]
      rw [hu]
      exact ih s2 (markerInv_step d doc hns s s2 hs hstep)

/-- The marker invariant is preserved by every external event. -/
theorem markerInv_applyEvent (d : ShardId) (doc : ReshardingDonorDocument)
    (hns : doc.sourceNss ≠ kForceOplogBatchBoundaryNamespace)
    (s : SystemState) (e : Event) (h : markerInv doc s) :
    markerInv doc (applyEvent d s e) := by
  have hrb : ∀ t : SystemState, t.record = s.record → t.oplog = s.oplog →
      markerInv doc (runToBlocked d t) := fun t h1 h2 =>
    markerInv_runInstance d doc hns 8 t (markerInv_congr doc s t h1 h2 h)
  cases e with
  | stepDown =>
    simp only [applyEvent]
    split
    · exact markerInv_congr doc s _ rfl rfl h
    · exact h
  | stepUp =>
    simp only [applyEvent]
    split
    · exact h
    · exact hrb _ rfl rfl
  | notifyRecipientsDoneCloning =>
    simp only [applyEvent]
    split
    · exact hrb _ rfl rfl
    · exact h
  | notifyToStartBlockingWrites =>
    simp only [applyEvent]
    split
    · exact hrb _ rfl rfl
    · exact h
  | notifyReshardingCommitting =>
    simp only [applyEvent]
    split
    · exact hrb _ rfl rfl
    · exact h
  | notifyReshardingAborting =>
    simp only [applyEvent]
    split
    · exact hrb _ rfl rfl
    · exact h

/-- A freshly persisted operation satisfies the marker invariant. -/
theorem markerInv_mkInitial (doc : ReshardingDonorDocument) (cat : Catalog) :
    markerInv doc (mkInitial doc cat) := by
  refine ⟨fun e he => absurd he (by simp [mkInitial]), Or.inl ⟨_, rfl, ?_, ?_, ?_, ?_⟩⟩
  · exact ⟨rfl, rfl, rfl, rfl, rfl⟩
  · simp [DonorStateEnum.rank]
  · intro hx
    simp at hx
  · refine if_bool_intro_false rfl ?_
    constructor
    · show minFetchCount (mkInitial doc cat) = _
      simp [minFetchCount, mkInitial, DonorStateEnum.rank]
    · show finalOpCount doc (mkInitial doc cat) = _
      simp [finalOpCount, mkInitial, DonorStateEnum.rank]

/-- Every reachable state of one operation satisfies the marker invariant. -/
theorem markerInv_run (d : ShardId) (doc : ReshardingDonorDocument)
    (cat : Catalog) (es : List Event)
    (hns : doc.sourceNss ≠ kForceOplogBatchBoundaryNamespace) :
    markerInv doc (run d doc cat es) := by
  unfold run
  have hbase : markerInv doc (runToBlocked d (mkInitial doc cat)) :=
    markerInv_runInstance d doc hns 8 _ (markerInv_mkInitial doc cat)
  revert hbase
  generalize runToBlocked d (mkInitial doc cat) = t
  revert t
  induction es with
  | nil => exact fun t ht => ht
  | cons e tl ih =>
    intro t ht
    rw [List.foldl_cons]
    exact ih _ (markerInv_applyEvent d doc hns t e ht)

/-- C1 (amended): across every event sequence — any number of leadership
losses and resumptions included — the boundary marker is written exactly
once, atomically with (durably) entering DonatingInitialData, and the
per-participant final markers exactly once, atomically with entering
BlockingWrites: the log never holds more than one boundary marker nor more
than one final marker per participant, the counts are exactly 0 while the
persisted phase is still behind the writing transition and exactly 1
(resp. `|participantSet|`) once the persisted phase is at or past it on the
non-aborted path; resuming never re-executes a side effect whose phase is
already persisted. -/
theorem marker_counts_across_resumption (d : ShardId)
    (doc : ReshardingDonorDocument) (cat : Catalog) (es : List Event)
    (hns : doc.sourceNss ≠ kForceOplogBatchBoundaryNamespace) :
    minFetchCount (run d doc cat es) ≤ 1
      ∧ finalOpCount doc (run d doc cat es) ≤ doc.recipientShards.length
      ∧ (∀ r, (run d doc cat es).record = some r → r.aborted = false →
          (minFetchCount (run d doc cat es)
              = if 2 ≤ r.state.rank then 1 else 0)
            ∧ (finalOpCount doc (run d doc cat es)
              = if 4 ≤ r.state.rank then doc.recipientShards.length else 0)) := by
  obtain ⟨-, hdisj⟩ := markerInv_run d doc cat es hns
  refine ⟨?_, ?_, ?_⟩
  · rcases hdisj with ⟨r, hr, hm, hrank, habdone, hcnt⟩ | ⟨-, hmin, -⟩
    · cases hab : r.aborted with
      | true => exact (if_bool_true hab hcnt).1
      | false =>
        rw [(if_bool_false hab hcnt).1]
        split <;> omega
    · exact hmin
  · rcases hdisj with ⟨r, hr, hm, hrank, habdone, hcnt⟩ | ⟨-, -, hfin⟩
    · cases hab : r.aborted with
      | true =>
        rcases (if_bool_true hab hcnt).2 with h1 | h1 <;> omega
      | false =>
        rw [(if_bool_false hab hcnt).2]
        split <;> omega
    · rcases hfin with h1 | h1 <;> omega
  · intro r0 hr0 hab0
    rcases hdisj with ⟨r, hr, hm, hrank, habdone, hcnt⟩ | ⟨hnone, -, -⟩
    · have hrr : r = r0 := Option.some.inj (hr.symm.trans hr0)
      subst hrr
      exact if_bool_false hab0 hcnt
    · rw [hnone] at hr0
      exact absurd hr0 (by simp)

/-- Concrete witness: with a leadership loss and resumption inserted into
the signal sequence, the donor-only scenario still never exceeds one
boundary marker nor one final marker per participant. -/
theorem marker_counts_across_resumption_witness :
    minFetchCount (run donorShardId (makeStateDocument false)
        (scenarioCatalog false) (interruptedSeq 1)) ≤ 1
      ∧ finalOpCount (makeStateDocument false)
          (run donorShardId (makeStateDocument false) (scenarioCatalog false)
            (interruptedSeq 1))
        ≤ (makeStateDocument false).recipientShards.length :=
  let h := marker_counts_across_resumption donorShardId (makeStateDocument false)
    (scenarioCatalog false) (interruptedSeq 1) (by decide)
  ⟨h.1, h.2.1⟩

/-- C10: the boundary marker of the min-fetch transition is a no-op
replication-log entry recorded under the dedicated oplog-batch-boundary
namespace — not under the source collection's namespace — and carries no
collection uuid; in every reachable state, every replication-log entry
without a collection uuid is exactly that boundary marker, so no marker of
that transition is ever attributed to the source collection. -/
theorem boundary_marker_namespace (d : ShardId)
    (doc : ReshardingDonorDocument) (cat : Catalog) (es : List Event)
    (hns : doc.sourceNss ≠ kForceOplogBatchBoundaryNamespace) :
    minFetchMarkerEntry.opType = OpTypeEnum.kNoop
      ∧ minFetchMarkerEntry.nss = kForceOplogBatchBoundaryNamespace
      ∧ minFetchMarkerEntry.uuid = none
      ∧ ∀ e ∈ (run d doc cat es).oplog, e.uuid = none →
          e = minFetchMarkerEntry ∧ e.nss ≠ doc.sourceNss := by
  obtain ⟨hshape, -⟩ := markerInv_run d doc cat es hns
  refine ⟨rfl, rfl, rfl, fun e he hu => ?_⟩
  rcases hshape e he with h1 | ⟨sh, -, h1⟩
  · subst h1
    exact ⟨rfl, Ne.symm hns⟩
  · subst h1
    exact absurd hu (by simp [finalOpEntry])

/-- Concrete witness: in the freshly created operation the boundary marker
is in the log, carries no uuid and is not attributed to the source
namespace. -/
theorem boundary_marker_namespace_witness :
    minFetchMarkerEntry.uuid = none
      ∧ minFetchMarkerEntry.nss ≠ (makeStateDocument true).sourceNss :=
  let h := boundary_marker_namespace donorShardId (makeStateDocument true)
    (scenarioCatalog true) [] (by decide)
  ⟨h.2.2.1, (h.2.2.2 minFetchMarkerEntry (by decide) rfl).2⟩

/-- Index access through `List.map`. -/
theorem list_get_map {α β : Type} (f : α → β) :
    ∀ (l : List α) (i : Nat) (h1 : i < (l.map f).length) (h2 : i < l.length),
      (l.map f).get ⟨i, h1⟩ = f (l.get ⟨i, h2⟩) := by
  intro l
  induction l with
  | nil =>
    intro i h1 h2
    exact absurd h2 (by simp)
  | cons a t ih =>
    intro i h1 h2
    cases i with
    | zero => rfl
    | succ i =>
      exact ih i (by simpa using h1) (by simpa using h2)

/-- C8 (amended): the single boundary marker — written with the transition
entering DonatingInitialData, not DonatingLogEntries — carries no
destined-recipient tag, while each of the `|participantSet|` markers
written with the transition entering BlockingWrites is tagged with exactly
one participant as its destined recipient and carries the `reshardFinalOp`
payload identifying the operation. -/
theorem marker_tags_at_transitions (d : ShardId) (s : SystemState)
    (r : ReshardingDonorDocument)
    (hrec : s.record = some r) (hp : s.primary = true)
    (hc : s.completion = none) (habort : s.latches.aborting = false) :
    (r.state = .kPreparingToDonate →
      donorStep d s = some { s with
          oplog := s.oplog ++ [minFetchMarkerEntry]
          record := some { r with
            state := .kDonatingInitialData
            minFetchTimestamp := some s.oplog.length } }
        ∧ minFetchMarkerEntry.destinedRecipient = none)
      ∧ (r.state = .kDonatingOplogEntries →
          s.latches.startBlockingWrites = true →
          donorStep d s = some { s with
              oplog := s.oplog ++ finalOplogEntries r
              record := some { r with state := .kBlockingWrites } }
            ∧ (finalOplogEntries r).length = r.recipientShards.length
            ∧ ∀ e ∈ finalOplogEntries r,
                (∃ sh ∈ r.recipientShards, e.destinedRecipient = some sh)
                  ∧ e.o2 = some { markerType := "reshardFinalOp",
                                  reshardingUUID := r.reshardingUUID }) := by
  constructor
  · intro hst
    exact ⟨by simp [donorStep, hrec, hp, hc, habort, hst], rfl⟩
  · intro hst hbw
    refine ⟨by simp [donorStep, hrec, hp, hc, habort, hst, hbw],
      by simp [finalOplogEntries], ?_⟩
    intro e he
    obtain ⟨sh, hsh, hesh⟩ := List.mem_map.mp he
    rw [← hesh]
    exact ⟨⟨sh, hsh, rfl⟩, rfl⟩

/-- Concrete witness for the marker tags: the freshly created operation's
boundary marker carries no destined recipient, and from
DonatingLogEntries the write-blocking transition appends one tagged marker
per participant. -/
theorem marker_tags_at_transitions_witness :
    minFetchMarkerEntry.destinedRecipient = none
      ∧ (finalOplogEntries { makeStateDocument false with
            state := DonorStateEnum.kDonatingOplogEntries }).length = 3 :=
  let h1 := marker_tags_at_transitions donorShardId
    (mkInitial (makeStateDocument false) (scenarioCatalog false))
    { makeStateDocument false with
      state := .kPreparingToDonate
      aborted := false
      minFetchTimestamp := none } rfl rfl rfl rfl
  let h2 := marker_tags_at_transitions donorShardId blockingWitnessState
    { makeStateDocument false with state := .kDonatingOplogEntries }
    rfl rfl rfl rfl
  ⟨(h1.1 rfl).2, ((h2.2 rfl rfl).2.1).trans (by decide)⟩

/-- C9: the per-participant final markers appended by the transition
entering BlockingWrites appear in the replication log in `participantSet`
order: the i-th appended marker is destined to the i-th participant. -/
theorem final_markers_order (d : ShardId) (s : SystemState)
    (r : ReshardingDonorDocument)
    (hrec : s.record = some r) (hst : r.state = .kDonatingOplogEntries)
    (hp : s.primary = true) (hc : s.completion = none)
    (habort : s.latches.aborting = false)
    (hbw : s.latches.startBlockingWrites = true) :
    donorStep d s = some { s with
        oplog := s.oplog ++ finalOplogEntries r
        record := some { r with state := .kBlockingWrites } }
      ∧ (finalOplogEntries r).length = r.recipientShards.length
      ∧ ∀ (i : Nat) (h1 : i < (finalOplogEntries r).length)
          (h2 : i < r.recipientShards.length),
          ((finalOplogEntries r).get ⟨i, h1⟩).destinedRecipient
            = some (r.recipientShards.get ⟨i, h2⟩) := by
  refine ⟨by simp [donorStep, hrec, hp, hc, habort, hst, hbw],
    by simp [finalOplogEntries], ?_⟩
  intro i h1 h2
  have hget : (finalOplogEntries r).get ⟨i, h1⟩
      = finalOpEntry r (r.recipientShards.get ⟨i, h2⟩) :=
    list_get_map (finalOpEntry r) r.recipientShards i h1 h2
  rw [hget]
  rfl

/-- Concrete witness for the marker order: in the donor-only scenario the
second appended final marker is destined to the second participant. -/
theorem final_markers_order_witness :
    ((finalOplogEntries { makeStateDocument false with
        state := DonorStateEnum.kDonatingOplogEntries }).get
          ⟨1, by decide⟩).destinedRecipient = some 12 :=
  let h := final_markers_order donorShardId blockingWitnessState
    { makeStateDocument false with state := .kDonatingOplogEntries }
    rfl rfl rfl rfl rfl rfl
  (h.2.2 1 (by decide) (by decide)).trans (by decide)

/-- C7: intake fails with a validation error — creating nothing — when the
participant set contains a duplicate identifier or a record with the same
operation id already exists; a rejected intake adds no persisted record, so
the validation failure never becomes a phase of the state machine, and
every record a successful intake adds starts at PreparingToDonate. -/
theorem intake_validation (store : List ReshardingDonorDocument)
    (doc : ReshardingDonorDocument) :
    (hasDuplicates doc.recipientShards = true →
        create store doc = IntakeResult.validationError)
      ∧ (store.any (fun r => r.reshardingUUID == doc.reshardingUUID) = true →
          create store doc = IntakeResult.validationError)
      ∧ (∀ st2, create store doc = IntakeResult.created st2 →
          hasDuplicates doc.recipientShards = false
            ∧ store.any (fun r => r.reshardingUUID == doc.reshardingUUID) = false
            ∧ st2 = store ++ [{ doc with
                state := .kPreparingToDonate
                aborted := false
                minFetchTimestamp := none }]) := by
  refine ⟨?_, ?_, ?_⟩
  · intro h1
    simp [create, h1]
  · intro h2
    unfold create
    rw [h2]
    split
    · rfl
    · simp
  · intro st2 hok
    unfold create at hok
    split at hok
    · exact absurd hok (by simp)
    · split at hok
      · exact absurd hok (by simp)
      · rename_i h1 h2
        refine ⟨by simpa using h1, by simpa using h2,
          (IntakeResult.created.inj hok).symm⟩

/-- Concrete witness for intake validation: a duplicated participant and a
duplicated operation id are each rejected. -/
theorem intake_validation_witness :
    create [] { makeStateDocument false with recipientShards := [11, 11, 13] }
        = IntakeResult.validationError
      ∧ create [makeStateDocument false] (makeStateDocument false)
        = IntakeResult.validationError :=
  ⟨(intake_validation [] _).1 (by decide),
   (intake_validation [makeStateDocument false] _).2.1 (by decide)⟩

end ReshardingDonor
